import Mathlib

/-!
Shallow embedding of the `chall-operator` CTF challenge operator
(Go sources under `api/v1alpha1`, `pkg/flaggen`, `pkg/builder`,
`internal/controller`).

Modelling conventions:
* Go strings are modelled as Lean `String`s; Go byte-level `len`/slicing is
  modelled at the character level (they coincide on ASCII data).
* Go `int32`/`int64` values are modelled as `Int` (none of the embedded code
  performs overflowing arithmetic).
* Go maps (labels, annotations) are modelled as association lists built in
  the source's literal order; map writes are replace-or-append.
* `crypto/rand` output and `os.Getenv` are ambient inputs of the Go code and
  are passed to the Lean functions as explicit oracle parameters.
* Kubernetes API reads/writes performed by the controller are modelled by
  oracle fields describing the API server's response to each call the code
  makes, and outcomes record the calls as a list of `ApiCall`s.
-/

instance {ε α : Type} [DecidableEq ε] [DecidableEq α] : DecidableEq (Except ε α) := fun a b =>
  match a, b with
  | .ok x, .ok y =>
    if h : x = y then isTrue (by rw [h]) else isFalse (fun hh => h (by cases hh; rfl))
  | .error x, .error y =>
    if h : x = y then isTrue (by rw [h]) else isFalse (fun hh => h (by cases hh; rfl))
  | .ok _, .error _ => isFalse (fun hh => by cases hh)
  | .error _, .ok _ => isFalse (fun hh => by cases hh)

/-- Literal left brace character (Go template delimiter). -/
def lbrace : Char := Char.ofNat 123

/-- Literal right brace character (Go template delimiter). -/
def rbrace : Char := Char.ofNat 125

/-! ## Go `text/template` fragment

The repository renders templates built from literal text, `.Field` actions
and quoted-string actions (the only constructs appearing in its templates,
its tests and its defaults).  Parsing an unterminated or malformed action is
a parse error, exactly as in `text/template`; referencing a field absent
from the context struct is an execution error. -/

inductive TmplNode where
  | text (s : String)
  | field (name : String)
  | lit (s : String)
deriving DecidableEq

def isIdentChar (c : Char) : Bool := c.isAlphanum || c = '_'

def takeIdent : List Char → (List Char × List Char)
  | [] => ([], [])
  | c :: cs =>
    if isIdentChar c then
      let p := takeIdent cs
      (c :: p.1, p.2)
    else ([], c :: cs)

def dropSpaces : List Char → List Char
  | ' ' :: cs => dropSpaces cs
  | cs => cs

/-- Read a quoted string literal's body up to the closing quote. -/
def takeLit : List Char → Option (List Char × List Char)
  | [] => none
  | c :: cs =>
    if c = '"' then some ([], cs)
    else
      match takeLit cs with
      | some (a, b) => some (c :: a, b)
      | none => none

/-- Parse the remainder of an action after `\x7b\x7b` has been consumed:
spаce-trimmed `.Ident` or `"literal"`, closed by `\x7d\x7d`.  Returns the
node and the unconsumed suffix. -/
def parseAction (l : List Char) : Option (TmplNode × List Char) :=
  match dropSpaces l with
  | '.' :: more =>
    let p := takeIdent more
    if p.1 = [] then none
    else
      match dropSpaces p.2 with
      | d1 :: d2 :: tail =>
        if d1 = rbrace ∧ d2 = rbrace then some (.field (String.mk p.1), tail) else none
      | _ => none
  | '"' :: more =>
    match takeLit more with
    | some (litChars, after) =>
      match dropSpaces after with
      | d1 :: d2 :: tail =>
        if d1 = rbrace ∧ d2 = rbrace then some (.lit (String.mk litChars), tail) else none
      | _ => none
    | none => none
  | _ => none

/-- Fuel-indexed template scanner; fuel `length + 1` always suffices since
every step consumes at least one character. -/
def parseNodes : Nat → List Char → Except String (List TmplNode)
  | 0, _ => .error "template: parse fuel exhausted"
  | _, [] => .ok []
  | fuel + 1, c1 :: rest =>
    if c1 = lbrace then
      match rest with
      | c2 :: rest2 =>
        if c2 = lbrace then
          match parseAction rest2 with
          | some (node, tail) =>
            match parseNodes fuel tail with
            | .ok ns => .ok (node :: ns)
            | .error e => .error e
          | none => .error "template: bad or unterminated action"
        else
          match parseNodes fuel rest with
          | .ok ns => .ok (.text (String.singleton c1) :: ns)
          | .error e => .error e
      | [] => .ok [.text (String.singleton c1)]
    else
      match parseNodes fuel rest with
      | .ok ns => .ok (.text (String.singleton c1) :: ns)
      | .error e => .error e

def parseTemplate (s : String) : Except String (List TmplNode) :=
  parseNodes (s.data.length + 1) s.data

/-- Execute parsed nodes against a field-lookup context; an unknown field is
an execution error (as for a missing struct field in `text/template`). -/
def execNodes (lookup : String → Option String) : List TmplNode → Except String String
  | [] => .ok ""
  | .text s :: rest =>
    match execNodes lookup rest with
    | .ok r => .ok (s ++ r)
    | .error e => .error e
  | .lit s :: rest =>
    match execNodes lookup rest with
    | .ok r => .ok (s ++ r)
    | .error e => .error e
  | .field n :: rest =>
    match lookup n with
    | some v =>
      match execNodes lookup rest with
      | .ok r => .ok (v ++ r)
      | .error e => .error e
    | none => .error ("template: can not evaluate field " ++ n)

/-- Parse and execute a template string against a context. -/
def renderTemplate (lookup : String → Option String) (t : String) : Except String String :=
  match parseTemplate t with
  | .ok ns => execNodes lookup ns
  | .error e => .error e

/-! ## `pkg/flaggen` (flag generator) -/

namespace flaggen

/-- `FlagContext` field lookup: the four fields available in flag templates. -/
def flagLookup (instanceID sourceID challengeID randomString : String) :
    String → Option String := fun n =>
  if n = "InstanceID" then some instanceID
  else if n = "SourceID" then some sourceID
  else if n = "ChallengeID" then some challengeID
  else if n = "RandomString" then some randomString
  else none

/-- The default flag template
`FLAG\x7b\x7b"\x7b"\x7d\x7d\x7b\x7b.ChallengeID\x7d\x7d_\x7b\x7b.SourceID\x7d\x7d_\x7b\x7b.RandomString\x7d\x7d\x7b\x7b"\x7d"\x7d\x7d`. -/
def DefaultTemplate : String :=
  "FLAG\x7b\x7b\"\x7b\"\x7d\x7d\x7b\x7b.ChallengeID\x7d\x7d_\x7b\x7b.SourceID\x7d\x7d_\x7b\x7b.RandomString\x7d\x7d\x7b\x7b\"\x7d\"\x7d\x7d"

/-- `flaggen.Generate`: empty template falls back to the default; the
cryptographically random hex string drawn by the Go code is the oracle
parameter `randomStr`; parse or execution failure is returned as an error. -/
def Generate (tmpl instanceID sourceID challengeID randomStr : String) :
    Except String String :=
  let t := if tmpl = "" then DefaultTemplate else tmpl
  renderTemplate (flagLookup instanceID sourceID challengeID randomStr) t

/-- Run one `Generate` per index of the given list, failing on the first
error (the loop body of `GenerateMultiple`). -/
def genFlags (f : Nat → Except String String) : List Nat → Except String (List String)
  | [] => .ok []
  | i :: rest =>
    match f i with
    | .error e => .error e
    | .ok v =>
      match genFlags f rest with
      | .error e => .error e
      | .ok vs => .ok (v :: vs)

/-- `flaggen.GenerateMultiple`: a non-positive count is normalised to 1;
`randoms i` is the oracle random string drawn by the i-th invocation. -/
def GenerateMultiple (tmpl instanceID sourceID challengeID : String) (count : Int)
    (randoms : Nat → String) : Except String (List String) :=
  let c := if count ≤ 0 then 1 else count
  genFlags (fun i => Generate tmpl instanceID sourceID challengeID (randoms i))
    (List.range c.toNat)

end flaggen

/-! ## `api/v1alpha1` data model

The `AttackBox`, `AuthProxy`, `Ingress` and `NetworkPolicy` scenario fields
and the `FlagValidated` status field are declared in a revision of
`challenge_types.go` not present verbatim in the sources; their shapes are
fixed by every read the present builder/controller code performs on them. -/

structure EnvVar where
  name : String
  value : String
deriving DecidableEq

/-- Opaque pass-through of `corev1.ResourceRequirements` (builders copy it
verbatim and never inspect it). -/
structure ResourceRequirements where
  repr : String
deriving DecidableEq

structure AttackBoxSpec where
  enabled : Bool
  image : String
  port : Int
  resources : ResourceRequirements
deriving DecidableEq

structure AuthProxySpec where
  enabled : Bool
  image : String
  resources : ResourceRequirements
deriving DecidableEq

structure IngressSpec where
  enabled : Bool
  hostTemplate : String
  ingressClassName : String
  annotations : List (String × String)
  tls : Bool
  clusterIssuer : String
deriving DecidableEq

structure NetworkPolicySpec where
  enabled : Bool
  allowDNS : Bool
  allowInternet : Bool
deriving DecidableEq

structure ChallengeScenarioSpec where
  image : String
  port : Int
  exposeType : String
  env : List EnvVar
  flagTemplate : String
  resources : ResourceRequirements
  attackBox : Option AttackBoxSpec
  authProxy : Option AuthProxySpec
  ingress : Option IngressSpec
  networkPolicy : Option NetworkPolicySpec
deriving DecidableEq

structure ChallengeSpec where
  id : String
  scenario : ChallengeScenarioSpec
  timeout : Int
deriving DecidableEq

structure Challenge where
  name : String
  ns : String
  spec : ChallengeSpec
deriving DecidableEq

structure ChallengeInstanceSpec where
  challengeID : String
  sourceID : String
  challengeName : String
  since : Int
  untilTime : Option Int
deriving DecidableEq

structure ChallengeInstanceStatus where
  phase : String
  connectionInfo : String
  flags : List String
  deploymentName : String
  serviceName : String
  ready : Bool
  flagValidated : Bool
deriving DecidableEq

structure ChallengeInstance where
  name : String
  ns : String
  spec : ChallengeInstanceSpec
  status : ChallengeInstanceStatus
deriving DecidableEq

/-! ## Kubernetes resource shapes (the fields the embedded code sets/reads) -/

structure ContainerPort where
  name : String
  containerPort : Int
  protocol : String
deriving DecidableEq

structure SecurityContext where
  runAsNonRoot : Bool
  runAsUser : Int
  allowPrivilegeEscalation : Bool
deriving DecidableEq

structure Container where
  name : String
  image : String
  imagePullPolicy : String
  ports : List ContainerPort
  env : List EnvVar
  resources : ResourceRequirements
  securityContext : Option SecurityContext
deriving DecidableEq

structure Deployment where
  name : String
  ns : String
  labels : List (String × String)
  replicas : Int
  selectorMatchLabels : List (String × String)
  podLabels : List (String × String)
  containers : List Container
  restartPolicy : String
  readyReplicas : Int
deriving DecidableEq

structure ServicePort where
  name : String
  port : Int
  targetPort : Int
  nodePort : Int
  protocol : String
deriving DecidableEq

structure LoadBalancerIngress where
  ip : String
  hostname : String
deriving DecidableEq

structure Service where
  name : String
  ns : String
  labels : List (String × String)
  svcType : String
  selector : List (String × String)
  ports : List ServicePort
  lbIngress : List LoadBalancerIngress
deriving DecidableEq

structure IngressPath where
  path : String
  pathType : String
  backendService : String
  backendPort : Int
deriving DecidableEq

structure IngressTLS where
  hosts : List String
  secretName : String
deriving DecidableEq

structure Ingress where
  name : String
  ns : String
  annotations : List (String × String)
  labels : List (String × String)
  host : String
  paths : List IngressPath
  tls : List IngressTLS
deriving DecidableEq

structure LabelSelector where
  matchLabels : List (String × String)
deriving DecidableEq

structure IPBlock where
  cidr : String
  except : List String
deriving DecidableEq

structure NetworkPolicyPeer where
  namespaceSelector : Option LabelSelector
  podSelector : Option LabelSelector
  ipBlock : Option IPBlock
deriving DecidableEq

structure NetworkPolicyPort where
  protocol : String
  port : Int
deriving DecidableEq

structure NetworkPolicyEgressRule where
  toPeers : List NetworkPolicyPeer
  ports : List NetworkPolicyPort
deriving DecidableEq

structure NetworkPolicy where
  name : String
  ns : String
  labels : List (String × String)
  podSelector : LabelSelector
  policyTypes : List String
  egress : List NetworkPolicyEgressRule
deriving DecidableEq

/-! ## `pkg/builder` label sanitisation and resource names -/

/-- Single-character-pattern case of Go `strings.ReplaceAll`. -/
def replaceCharL (c : Char) (rep : List Char) : List Char → List Char
  | [] => []
  | x :: xs => (if x = c then rep else [x]) ++ replaceCharL c rep xs

/-- `SanitizeForLabel`: `@` becomes `-at-`, `.` becomes `-`, letters are
lowercased, and the result is truncated to the 63-character label limit. -/
def SanitizeForLabel (s : String) : String :=
  String.mk
    (List.take 63
      (List.map Char.toLower
        (replaceCharL '.' ['-'] (replaceCharL '@' "-at-".data s.data))))

def DeploymentName (inst : ChallengeInstance) : String := inst.name ++ "-deployment"

def ServiceName (inst : ChallengeInstance) : String := inst.name ++ "-svc"

def AttackBoxDeploymentName (inst : ChallengeInstance) : String := inst.name ++ "-attackbox"

def AttackBoxServiceName (inst : ChallengeInstance) : String := inst.name ++ "-attackbox-svc"

def NetworkPolicyName (inst : ChallengeInstance) : String := inst.name ++ "-attackbox-netpol"

def IngressName (inst : ChallengeInstance) : String := inst.name ++ "-ingress"

/-! ## `pkg/builder/deployment.go` -/

/-- Whether the template requests the identity-verification sidecar. -/
def authProxyEnabled (challenge : Challenge) : Bool :=
  match challenge.spec.scenario.authProxy with
  | some ap => ap.enabled
  | none => false

/-- Whether the template requests the terminal (attack-box) workload. -/
def attackBoxEnabled (challenge : Challenge) : Bool :=
  match challenge.spec.scenario.attackBox with
  | some ab => ab.enabled
  | none => false

/-- Whether the template requests the network-isolation policy. -/
def networkPolicyEnabled (challenge : Challenge) : Bool :=
  match challenge.spec.scenario.networkPolicy with
  | some np => np.enabled
  | none => false

/-- Labels attached to the primary Deployment. -/
def deploymentLabels (inst : ChallengeInstance) : List (String × String) :=
  [("app", "challenge"),
   ("ctf.io/challenge", inst.spec.challengeID),
   ("ctf.io/instance", inst.name),
   ("ctf.io/source", SanitizeForLabel inst.spec.sourceID),
   ("app.kubernetes.io/name", "challenge-instance"),
   ("app.kubernetes.io/instance", inst.name),
   ("app.kubernetes.io/managed-by", "chall-operator")]

/-- Environment of the primary challenge container: template env, the flag
when one exists, then the instance metadata variables. -/
def challengeEnv (inst : ChallengeInstance) (challenge : Challenge) : List EnvVar :=
  challenge.spec.scenario.env ++
    (match inst.status.flags with
     | flag :: _ => [⟨"FLAG", flag⟩]
     | [] => []) ++
    [⟨"INSTANCE_ID", inst.name⟩,
     ⟨"SOURCE_ID", inst.spec.sourceID⟩,
     ⟨"CHALLENGE_ID", inst.spec.challengeID⟩]

/-- The auth-proxy sidecar container of the primary Deployment. -/
def authProxyContainer (inst : ChallengeInstance) (challenge : Challenge) : Container :=
  let image :=
    match challenge.spec.scenario.authProxy with
    | some ap => if ap.image ≠ "" then ap.image else "ctf-auth-proxy:simple"
    | none => "ctf-auth-proxy:simple"
  { name := "auth-proxy"
    image := image
    imagePullPolicy := "IfNotPresent"
    ports := [⟨"http", 80, "TCP"⟩]
    env := [⟨"ALLOWED_USER", inst.spec.sourceID⟩,
            ⟨"TARGET_PORT", toString challenge.spec.scenario.port⟩]
    resources :=
      match challenge.spec.scenario.authProxy with
      | some ap => ap.resources
      | none => ⟨""⟩
    securityContext := none }

/-- `BuildDeployment`: primary workload for the instance, with the optional
auth-proxy sidecar prepended when enabled. -/
def BuildDeployment (inst : ChallengeInstance) (challenge : Challenge) : Deployment :=
  let challengeContainer : Container :=
    { name := "challenge"
      image := challenge.spec.scenario.image
      imagePullPolicy := "IfNotPresent"
      ports := [⟨"challenge", challenge.spec.scenario.port, "TCP"⟩]
      env := challengeEnv inst challenge
      resources := challenge.spec.scenario.resources
      securityContext := none }
  let containers :=
    (if authProxyEnabled challenge then [authProxyContainer inst challenge] else []) ++
      [challengeContainer]
  { name := DeploymentName inst
    ns := inst.ns
    labels := deploymentLabels inst
    replicas := 1
    selectorMatchLabels := [("ctf.io/instance", inst.name)]
    podLabels := deploymentLabels inst
    containers := containers
    restartPolicy := "Always"
    readyReplicas := 0 }

/-! ## `pkg/builder/service.go` -/

/-- `BuildService`: NodePort unless the template asks for a LoadBalancer. -/
def BuildService (inst : ChallengeInstance) (challenge : Challenge) : Service :=
  let svcType :=
    if challenge.spec.scenario.exposeType = "LoadBalancer" then "LoadBalancer" else "NodePort"
  { name := inst.name ++ "-svc"
    ns := inst.ns
    labels :=
      [("app", "challenge"),
       ("ctf.io/challenge", inst.spec.challengeID),
       ("ctf.io/instance", inst.name),
       ("ctf.io/source", inst.spec.sourceID),
       ("app.kubernetes.io/name", "challenge-instance"),
       ("app.kubernetes.io/instance", inst.name),
       ("app.kubernetes.io/managed-by", "chall-operator")]
    svcType := svcType
    selector := [("ctf.io/instance", inst.name)]
    ports := [{ name := "challenge"
                port := challenge.spec.scenario.port
                targetPort := challenge.spec.scenario.port
                nodePort := 0
                protocol := "TCP" }]
    lbIngress := [] }

/-- `GetConnectionInfo`: derive the user-facing connection string from an
observed Service (`none` models the Go nil pointer). -/
def GetConnectionInfo (service : Option Service) (nodeIP : String) : String :=
  match service with
  | none => ""
  | some svc =>
    match svc.ports with
    | [] => ""
    | port :: _ =>
      if svc.svcType = "NodePort" then
        if port.nodePort > 0 then "nc " ++ nodeIP ++ " " ++ toString port.nodePort else ""
      else if svc.svcType = "LoadBalancer" then
        match svc.lbIngress with
        | [] => ""
        | ing :: _ =>
          let host := if ing.ip ≠ "" then ing.ip else ing.hostname
          if host ≠ "" then "nc " ++ host ++ " " ++ toString port.port else ""
      else ""

/-! ## `pkg/builder` attack-box (terminal workload) builders -/

/-- Labels attached to the AttackBox Deployment. -/
def attackBoxLabels (inst : ChallengeInstance) : List (String × String) :=
  [("app", AttackBoxDeploymentName inst),
   ("component", "attackbox"),
   ("ctf.io/challenge", inst.spec.challengeID),
   ("ctf.io/instance", inst.name),
   ("ctf.io/source", SanitizeForLabel inst.spec.sourceID),
   ("app.kubernetes.io/name", "attackbox"),
   ("app.kubernetes.io/instance", inst.name),
   ("app.kubernetes.io/managed-by", "chall-operator")]

/-- ttyd port: template override when positive, 7681 otherwise. -/
def attackBoxTtydPort (challenge : Challenge) : Int :=
  match challenge.spec.scenario.attackBox with
  | some ab => if ab.port > 0 then ab.port else 7681
  | none => 7681

/-- `BuildAttackBoxDeployment`: terminal workload (ttyd), with the optional
auth-proxy sidecar on its own fixed port 8888. -/
def BuildAttackBoxDeployment (inst : ChallengeInstance) (challenge : Challenge) :
    Option Deployment :=
  match challenge.spec.scenario.attackBox with
  | none => none
  | some ab =>
    if ¬ab.enabled then none
    else
      let attackBoxName := AttackBoxDeploymentName inst
      let username := SanitizeForLabel inst.spec.sourceID
      let attackBoxImage := if ab.image ≠ "" then ab.image else "attack-box:latest"
      let ttydPort := if ab.port > 0 then ab.port else 7681
      let challengeSvcDNS := ServiceName inst ++ "." ++ inst.ns ++ ".svc.cluster.local"
      let sidecar : List Container :=
        match challenge.spec.scenario.authProxy with
        | some ap =>
          if ap.enabled then
            [{ name := "auth-proxy-attackbox"
               image := if ap.image ≠ "" then ap.image else "ctf-auth-proxy:simple"
               imagePullPolicy := "IfNotPresent"
               ports := [⟨"http", 8888, "TCP"⟩]
               env := [⟨"ALLOWED_USER", inst.spec.sourceID⟩,
                       ⟨"TARGET_PORT", toString ttydPort⟩,
                       ⟨"LISTEN_PORT", "8888"⟩]
               resources := ap.resources
               securityContext := none }]
          else []
        | none => []
      let attackBoxContainer : Container :=
        { name := "attackbox"
          image := attackBoxImage
          imagePullPolicy := "IfNotPresent"
          ports := [⟨"ttyd", ttydPort, "TCP"⟩]
          env := [⟨"PS1", "\\[\\e[1;32m\\]" ++ username ++
                          "@attackbox\\[\\e[0m\\]:\\[\\e[1;34m\\]\\w\\[\\e[0m\\]$ "⟩,
                  ⟨"CHALLENGE_HOST", challengeSvcDNS⟩,
                  ⟨"TTYD_PORT", toString ttydPort⟩,
                  ⟨"INSTANCE_ID", inst.name⟩,
                  ⟨"SOURCE_ID", inst.spec.sourceID⟩,
                  ⟨"CHALLENGE_ID", inst.spec.challengeID⟩]
          resources := ab.resources
          securityContext := some ⟨true, 1000, false⟩ }
      some
        { name := attackBoxName
          ns := inst.ns
          labels := attackBoxLabels inst
          replicas := 1
          selectorMatchLabels := [("app", attackBoxName)]
          podLabels := attackBoxLabels inst
          containers := sidecar ++ [attackBoxContainer]
          restartPolicy := "Always"
          readyReplicas := 0 }

/-- `BuildAttackBoxService`: ClusterIP service in front of the terminal
workload; targets the auth-proxy port when the sidecar is enabled. -/
def BuildAttackBoxService (inst : ChallengeInstance) (challenge : Challenge) :
    Option Service :=
  match challenge.spec.scenario.attackBox with
  | none => none
  | some ab =>
    if ¬ab.enabled then none
    else
      let attackBoxName := AttackBoxDeploymentName inst
      let targetPort := if ab.port > 0 then ab.port else 7681
      let serviceTargetPort := if authProxyEnabled challenge then 8888 else targetPort
      some
        { name := AttackBoxServiceName inst
          ns := inst.ns
          labels := [("app", attackBoxName),
                     ("component", "attackbox"),
                     ("ctf.io/challenge", inst.spec.challengeID),
                     ("ctf.io/instance", inst.name),
                     ("app.kubernetes.io/managed-by", "chall-operator")]
          svcType := "ClusterIP"
          selector := [("app", attackBoxName)]
          ports := [{ name := "http"
                      port := 8080
                      targetPort := serviceTargetPort
                      nodePort := 0
                      protocol := "TCP" }]
          lbIngress := [] }

/-! ## ingress builder (routing rule)

`os.Getenv` reads are modelled by the explicit process-environment oracle
`env : String → String` (Go's `Getenv` returns `""` for unset variables). -/

/-- `getDefaultHostTemplate`: `DEFAULT_HOST_TEMPLATE` env override or the
built-in default host template. -/
def getDefaultHostTemplate (env : String → String) : String :=
  if env "DEFAULT_HOST_TEMPLATE" ≠ "" then env "DEFAULT_HOST_TEMPLATE"
  else "ctf.\x7b\x7b.InstanceName\x7d\x7d.\x7b\x7b.Username\x7d\x7d.\x7b\x7b.ChallengeID\x7d\x7d.devleo.local"

/-- `getAuthURL`: `AUTH_URL` env override or the built-in default. -/
def getAuthURL (env : String → String) : String :=
  if env "AUTH_URL" ≠ "" then env "AUTH_URL" else "auth.devleo.local"

/-- `HostContext` field lookup for hostname templates. -/
structure HostContext where
  instanceName : String
  username : String
  challengeID : String
  sourceID : String
deriving DecidableEq

def hostLookup (ctx : HostContext) : String → Option String := fun n =>
  if n = "InstanceName" then some ctx.instanceName
  else if n = "Username" then some ctx.username
  else if n = "ChallengeID" then some ctx.challengeID
  else if n = "SourceID" then some ctx.sourceID
  else none

/-- `renderHostTemplate`: parse and execute a hostname template. -/
def renderHostTemplate (tmpl : String) (ctx : HostContext) : Except String String :=
  renderTemplate (hostLookup ctx) tmpl

/-- Association-list write with Go map `m[k] = v` semantics. -/
def setKV (kvs : List (String × String)) (k v : String) : List (String × String) :=
  if (kvs.lookup k).isSome then
    kvs.map (fun p => if p.1 = k then (k, v) else p)
  else kvs ++ [(k, v)]

/-- Association-list write only when the key is absent (the default-annotation
merge loop skips keys that already exist). -/
def setKVIfAbsent (kvs : List (String × String)) (k v : String) : List (String × String) :=
  if (kvs.lookup k).isSome then kvs else kvs ++ [(k, v)]

/-- The default-annotation set of `BuildIngress`, in source literal order,
extended with the websocket annotations when the attack box is enabled. -/
def defaultIngressAnnotations (inst : ChallengeInstance) (challenge : Challenge)
    (env : String → String) : List (String × String) :=
  let authSignin :=
    "http://" ++ getAuthURL env ++ "/oauth2/start?rd=$scheme://$host$request_uri"
  [("nginx.ingress.kubernetes.io/ssl-redirect", "false"),
   ("nginx.ingress.kubernetes.io/auth-url",
    "http://oauth2-proxy.keycloak.svc.cluster.local:4180/oauth2/auth"),
   ("nginx.ingress.kubernetes.io/auth-signin", authSignin),
   ("nginx.ingress.kubernetes.io/auth-response-headers",
    "X-Auth-Request-User,X-Auth-Request-Email,Authorization"),
   ("nginx.ingress.kubernetes.io/proxy-buffer-size", "16k"),
   ("nginx.ingress.kubernetes.io/proxy-buffers-number", "4"),
   ("nginx.ingress.kubernetes.io/proxy-busy-buffers-size", "24k")] ++
  (if attackBoxEnabled challenge then
    [("nginx.ingress.kubernetes.io/proxy-read-timeout", "3600"),
     ("nginx.ingress.kubernetes.io/proxy-send-timeout", "3600"),
     ("nginx.ingress.kubernetes.io/websocket-services", AttackBoxServiceName inst),
     ("nginx.ingress.kubernetes.io/use-regex", "true"),
     ("nginx.ingress.kubernetes.io/rewrite-target", "/$2")]
   else [])

/-- `BuildIngress`: routing rule mapping the templated hostname to the
primary endpoint, with a higher-priority `/terminal` path when the terminal
workload is enabled; a hostname-template rendering error falls back to
`<instance>.ctf.local`. -/
def BuildIngress (inst : ChallengeInstance) (challenge : Challenge)
    (env : String → String) : Option Ingress :=
  match challenge.spec.scenario.ingress with
  | none => none
  | some ing =>
    if ¬ing.enabled then none
    else
      let ingressName := IngressName inst
      let username := SanitizeForLabel inst.spec.sourceID
      let hostTemplate :=
        if ing.hostTemplate ≠ "" then ing.hostTemplate else getDefaultHostTemplate env
      let hostname :=
        match renderHostTemplate hostTemplate
            ⟨inst.name, username, inst.spec.challengeID, inst.spec.sourceID⟩ with
        | .ok h => h
        | .error _ => inst.name ++ ".ctf.local"
      let annotations0 := [("kubernetes.io/ingress.class", ing.ingressClassName)]
      let annotations1 :=
        (defaultIngressAnnotations inst challenge env).foldl
          (fun acc kv => setKVIfAbsent acc kv.1 kv.2) annotations0
      let annotations2 :=
        ing.annotations.foldl (fun acc kv => setKV acc kv.1 kv.2) annotations1
      let annotations3 :=
        if ing.tls ∧ ing.clusterIssuer ≠ "" then
          setKV annotations2 "cert-manager.io/cluster-issuer" ing.clusterIssuer
        else annotations2
      let paths :=
        (if attackBoxEnabled challenge then
          [{ path := "/terminal(/|$)(.*)"
             pathType := "ImplementationSpecific"
             backendService := AttackBoxServiceName inst
             backendPort := 8080 : IngressPath }]
         else []) ++
        [{ path := "/"
           pathType := "Prefix"
           backendService := ServiceName inst
           backendPort := 80 : IngressPath }]
      some
        { name := ingressName
          ns := inst.ns
          annotations := annotations3
          labels := [("ctf.io/challenge", inst.spec.challengeID),
                     ("ctf.io/instance", inst.name),
                     ("ctf.io/source", username),
                     ("app.kubernetes.io/managed-by", "chall-operator")]
          host := hostname
          paths := paths
          tls := if ing.tls then [⟨[hostname], ingressName ++ "-tls"⟩] else [] }

/-- `GetIngressHostname`: the hostname the routing rule would use; empty when
the template has no routing spec, fallback `<instance>.ctf.local` on a
template-rendering error. -/
def GetIngressHostname (inst : ChallengeInstance) (challenge : Challenge)
    (env : String → String) : String :=
  match challenge.spec.scenario.ingress with
  | none => ""
  | some ing =>
    let hostTemplate :=
      if ing.hostTemplate ≠ "" then ing.hostTemplate else getDefaultHostTemplate env
    match renderHostTemplate hostTemplate
        ⟨inst.name, SanitizeForLabel inst.spec.sourceID, inst.spec.challengeID,
         inst.spec.sourceID⟩ with
    | .ok h => h
    | .error _ => inst.name ++ ".ctf.local"

/-! ## `pkg/builder/networkpolicy.go` -/

/-- `BuildNetworkPolicy`: egress-only isolation policy for the attack box;
`none` unless both the attack box and the network policy are enabled. -/
def BuildNetworkPolicy (inst : ChallengeInstance) (challenge : Challenge) :
    Option NetworkPolicy :=
  match challenge.spec.scenario.attackBox, challenge.spec.scenario.networkPolicy with
  | some ab, some np =>
    if ¬ab.enabled ∨ ¬np.enabled then none
    else
      let attackBoxName := AttackBoxDeploymentName inst
      let username := SanitizeForLabel inst.spec.sourceID
      let dnsRules : List NetworkPolicyEgressRule :=
        if np.allowDNS then
          [{ toPeers := [{ namespaceSelector :=
                             some ⟨[("kubernetes.io/metadata.name", "kube-system")]⟩
                           podSelector := some ⟨[("k8s-app", "kube-dns")]⟩
                           ipBlock := none }]
             ports := [⟨"UDP", 53⟩, ⟨"TCP", 53⟩] }]
        else []
      let challengeRules : List NetworkPolicyEgressRule :=
        [{ toPeers := [{ namespaceSelector := none
                         podSelector := some ⟨[("ctf.io/instance", inst.name),
                                               ("app", "challenge")]⟩
                         ipBlock := none }]
           ports := [] }]
      let internetRules : List NetworkPolicyEgressRule :=
        if np.allowInternet then
          [{ toPeers := [{ namespaceSelector := none
                           podSelector := none
                           ipBlock := some ⟨"0.0.0.0/0",
                                            ["10.0.0.0/8", "172.16.0.0/12",
                                             "192.168.0.0/16"]⟩ }]
             ports := [] }]
        else []
      some
        { name := NetworkPolicyName inst
          ns := inst.ns
          labels := [("component", "attackbox"),
                     ("ctf.io/challenge", inst.spec.challengeID),
                     ("ctf.io/instance", inst.name),
                     ("ctf.io/source", username),
                     ("app.kubernetes.io/managed-by", "chall-operator")]
          podSelector := ⟨[("app", attackBoxName)]⟩
          policyTypes := ["Egress"]
          egress := dnsRules ++ challengeRules ++ internetRules }
  | _, _ => none

/-! ## `internal/controller/challengeinstance_controller.go`

One reconcile pass is modelled as a pure function of the instance fetched,
the API server's response to each read the code performs (`Cluster`), the
success of the write calls (`ApiBehavior`), the clock, and the flag-random
oracle.  The pass returns the list of API calls it made, the
`ctrl.Result`/error pair handed back to the controller-runtime scheduler,
and the in-memory instance at the end of the pass. -/

/-- Response of the API server to one `Get` call. -/
inductive GetR (α : Type) where
  | found (a : α)
  | notFound
  | apiError
deriving DecidableEq

/-- Responses to the `Get` calls one reconcile pass can make, keyed by the
call site (each site queries one fixed name). -/
structure Cluster where
  challenge : GetR Challenge
  deployment : GetR Deployment
  service : GetR Service
  attackBoxDeployment : GetR Deployment
  attackBoxService : GetR Service
  ingress : GetR Ingress
  networkPolicy : GetR NetworkPolicy
  statusDeployment : GetR Deployment
  statusService : GetR Service
deriving DecidableEq

/-- Success of the write calls of the pass (`Delete`, `Create`,
`Status().Update`). -/
structure ApiBehavior where
  deleteOk : Bool
  createOk : Bool
  statusUpdateOk : Bool
deriving DecidableEq

/-- Reconciler configuration: the `NodeIP` field and the process env. -/
structure Config where
  nodeIP : String
  env : String → String

/-- API calls recorded by a pass, in order. -/
inductive ApiCall where
  | deleteInstance
  | getChallenge
  | generateFlag
  | createDeployment (d : Deployment)
  | createService (s : Service)
  | createAttackBoxDeployment (d : Deployment)
  | createAttackBoxService (s : Service)
  | createIngress (ing : Ingress)
  | createNetworkPolicy (np : NetworkPolicy)
  | updateStatus (st : ChallengeInstanceStatus)
deriving DecidableEq

/-- `ctrl.Result` (requeue-after in seconds; 0 = none). -/
structure CtrlResult where
  requeue : Bool
  requeueAfterSeconds : Int
deriving DecidableEq

def emptyResult : CtrlResult := ⟨false, 0⟩

/-- Result of one `ensure*` helper: calls made, in-memory instance,
`ctrl.Result` and whether a non-nil error was returned. -/
structure StepOut where
  actions : List ApiCall
  inst : ChallengeInstance
  result : CtrlResult
  err : Bool
deriving DecidableEq

/-- Outcome of a full pass; `inst = none` when the instance was absent or the
pass deleted it. -/
structure Outcome where
  actions : List ApiCall
  result : CtrlResult
  err : Bool
  inst : Option ChallengeInstance
deriving DecidableEq

/-- `getNodeIP`: configured value, `NODE_IP` env, or `localhost`. -/
def getNodeIP (cfg : Config) : String :=
  if cfg.nodeIP ≠ "" then cfg.nodeIP
  else if cfg.env "NODE_IP" ≠ "" then cfg.env "NODE_IP"
  else "localhost"

/-- `time.Now().After(until)` for an instance with an expiry set. -/
def isExpired (now : Int) (inst : ChallengeInstance) : Bool :=
  match inst.spec.untilTime with
  | some u => decide (u < now)
  | none => false

/-- `ensureDeployment`: create the primary workload if absent and record its
name in status. -/
def ensureDeployment (api : ApiBehavior) (inst : ChallengeInstance)
    (challenge : Challenge) (cl : Cluster) : StepOut :=
  let d := BuildDeployment inst challenge
  match cl.deployment with
  | .found _ => ⟨[], inst, emptyResult, false⟩
  | .apiError => ⟨[], inst, emptyResult, true⟩
  | .notFound =>
    if ¬api.createOk then ⟨[.createDeployment d], inst, emptyResult, true⟩
    else
      let inst' := { inst with status := { inst.status with deploymentName := d.name } }
      ⟨[.createDeployment d, .updateStatus inst'.status], inst', emptyResult,
        ¬api.statusUpdateOk⟩

/-- `ensureService`: create the endpoint if absent; when it already exists,
recompute connection info from its observed state and overwrite status when
the computed string is non-empty and different. -/
def ensureService (cfg : Config) (api : ApiBehavior) (inst : ChallengeInstance)
    (challenge : Challenge) (cl : Cluster) : StepOut :=
  let s := BuildService inst challenge
  match cl.service with
  | .apiError => ⟨[], inst, emptyResult, true⟩
  | .notFound =>
    if ¬api.createOk then ⟨[.createService s], inst, emptyResult, true⟩
    else
      let inst' := { inst with status := { inst.status with serviceName := s.name } }
      ⟨[.createService s, .updateStatus inst'.status], inst', emptyResult,
        ¬api.statusUpdateOk⟩
  | .found existing =>
    let connInfo := GetConnectionInfo (some existing) (getNodeIP cfg)
    if connInfo ≠ "" ∧ inst.status.connectionInfo ≠ connInfo then
      let inst' := { inst with status := { inst.status with connectionInfo := connInfo } }
      ⟨[.updateStatus inst'.status], inst', emptyResult, ¬api.statusUpdateOk⟩
    else ⟨[], inst, emptyResult, false⟩

/-- `ensureAttackBox`: create the terminal workload and its endpoint if
configured and absent. -/
def ensureAttackBox (api : ApiBehavior) (inst : ChallengeInstance)
    (challenge : Challenge) (cl : Cluster) : StepOut :=
  let depPart : List ApiCall × Bool :=
    match BuildAttackBoxDeployment inst challenge with
    | none => ([], false)
    | some d =>
      match cl.attackBoxDeployment with
      | .found _ => ([], false)
      | .apiError => ([], true)
      | .notFound => ([.createAttackBoxDeployment d], ¬api.createOk)
  if depPart.2 then ⟨depPart.1, inst, emptyResult, true⟩
  else
    let svcPart : List ApiCall × Bool :=
      match BuildAttackBoxService inst challenge with
      | none => ([], false)
      | some s =>
        match cl.attackBoxService with
        | .found _ => ([], false)
        | .apiError => ([], true)
        | .notFound => ([.createAttackBoxService s], ¬api.createOk)
    ⟨depPart.1 ++ svcPart.1, inst, emptyResult, svcPart.2⟩

/-- `ensureIngress`: create the routing rule if configured and absent, then
set connection info from the ingress hostname — but only when connection
info is still empty; a non-not-found `Get` error is surfaced only when
connection info was already non-empty (the `else if` chain of the source). -/
def ensureIngress (cfg : Config) (api : ApiBehavior) (inst : ChallengeInstance)
    (challenge : Challenge) (cl : Cluster) : StepOut :=
  match BuildIngress inst challenge cfg.env with
  | none => ⟨[], inst, emptyResult, false⟩
  | some ing =>
    let createActs : List ApiCall :=
      match cl.ingress with
      | .notFound => [.createIngress ing]
      | _ => []
    let createFailed : Bool :=
      match cl.ingress with
      | .notFound => ¬api.createOk
      | _ => false
    if createFailed then ⟨createActs, inst, emptyResult, true⟩
    else if inst.status.connectionInfo = "" then
      let hostname := GetIngressHostname inst challenge cfg.env
      if hostname ≠ "" then
        let ci :=
          if attackBoxEnabled challenge then
            "Challenge: http://" ++ hostname ++ "\nTerminal: http://" ++ hostname ++
              "/terminal"
          else "http://" ++ hostname
        let inst' := { inst with status := { inst.status with connectionInfo := ci } }
        if ¬api.statusUpdateOk then
          ⟨createActs ++ [.updateStatus inst'.status], inst', emptyResult, true⟩
        else
          ⟨createActs ++ [.updateStatus inst'.status, .updateStatus inst'.status],
            inst', emptyResult, false⟩
      else ⟨createActs, inst, emptyResult, false⟩
    else
      match cl.ingress with
      | .apiError => ⟨createActs, inst, emptyResult, true⟩
      | _ => ⟨createActs, inst, emptyResult, false⟩

/-- `ensureNetworkPolicy`: create the isolation policy if configured and
absent. -/
def ensureNetworkPolicy (api : ApiBehavior) (inst : ChallengeInstance)
    (challenge : Challenge) (cl : Cluster) : StepOut :=
  match BuildNetworkPolicy inst challenge with
  | none => ⟨[], inst, emptyResult, false⟩
  | some np =>
    match cl.networkPolicy with
    | .found _ => ⟨[], inst, emptyResult, false⟩
    | .apiError => ⟨[], inst, emptyResult, true⟩
    | .notFound => ⟨[.createNetworkPolicy np], inst, emptyResult, ¬api.createOk⟩

/-- `checkAndUpdateReady`: flip phase to Running on the transition into
readiness and refresh connection info from the endpoint. -/
def checkAndUpdateReady (cfg : Config) (api : ApiBehavior) (inst : ChallengeInstance)
    (cl : Cluster) : List ApiCall × ChallengeInstance × Bool :=
  if inst.status.deploymentName = "" then ([], inst, false)
  else
    match cl.statusDeployment with
    | .notFound => ([], inst, true)
    | .apiError => ([], inst, true)
    | .found d =>
      if d.readyReplicas > 0 then
        if inst.status.phase ≠ "Running" ∨ ¬inst.status.ready then
          let st1 := { inst.status with phase := "Running", ready := true }
          let st2 :=
            if inst.status.serviceName ≠ "" then
              match cl.statusService with
              | .found svc =>
                let ci := GetConnectionInfo (some svc) (getNodeIP cfg)
                if ci ≠ "" then { st1 with connectionInfo := ci } else st1
              | _ => st1
            else st1
          ([.updateStatus st2], { inst with status := st2 }, ¬api.statusUpdateOk)
        else ([], inst, false)
      else ([], inst, false)

/-- `Reconcile`: one full pass, in source order — expiry check, objective-met
check, template resolution, flag generation, the five ensure steps, then the
readiness check and the 10-second requeue. -/
def Reconcile (cfg : Config) (api : ApiBehavior) (now : Int)
    (getInstance : GetR ChallengeInstance) (cl : Cluster) (flagRand : String) : Outcome :=
  match getInstance with
  | .notFound => ⟨[], emptyResult, false, none⟩
  | .apiError => ⟨[], emptyResult, true, none⟩
  | .found inst =>
    if isExpired now inst then
      if api.deleteOk then ⟨[.deleteInstance], emptyResult, false, none⟩
      else ⟨[.deleteInstance], emptyResult, true, some inst⟩
    else if inst.status.flagValidated then
      if api.deleteOk then ⟨[.deleteInstance], emptyResult, false, none⟩
      else ⟨[.deleteInstance], emptyResult, true, some inst⟩
    else
      match cl.challenge with
      | .found challenge =>
        if inst.status.flags = [] then
          match flaggen.Generate challenge.spec.scenario.flagTemplate inst.name
              inst.spec.sourceID inst.spec.challengeID flagRand with
          | .error _ => ⟨[.getChallenge, .generateFlag], emptyResult, true, some inst⟩
          | .ok flag =>
            let inst' :=
              { inst with status := { inst.status with flags := [flag], phase := "Pending" } }
            if api.statusUpdateOk then
              ⟨[.getChallenge, .generateFlag, .updateStatus inst'.status],
                ⟨true, 0⟩, false, some inst'⟩
            else
              ⟨[.getChallenge, .generateFlag, .updateStatus inst'.status],
                emptyResult, true, some inst'⟩
        else
          let s1 := ensureDeployment api inst challenge cl
          if s1.err || s1.result.requeue then
            ⟨.getChallenge :: s1.actions, s1.result, s1.err, some s1.inst⟩
          else
            let s2 := ensureService cfg api s1.inst challenge cl
            if s2.err || s2.result.requeue then
              ⟨.getChallenge :: s1.actions ++ s2.actions, s2.result, s2.err, some s2.inst⟩
            else
              let s3 := ensureAttackBox api s2.inst challenge cl
              if s3.err || s3.result.requeue then
                ⟨.getChallenge :: s1.actions ++ s2.actions ++ s3.actions, s3.result,
                  s3.err, some s3.inst⟩
              else
                let s4 := ensureIngress cfg api s3.inst challenge cl
                if s4.err || s4.result.requeue then
                  ⟨.getChallenge :: s1.actions ++ s2.actions ++ s3.actions ++ s4.actions,
                    s4.result, s4.err, some s4.inst⟩
                else
                  let s5 := ensureNetworkPolicy api s4.inst challenge cl
                  if s5.err || s5.result.requeue then
                    ⟨.getChallenge :: s1.actions ++ s2.actions ++ s3.actions ++
                        s4.actions ++ s5.actions, s5.result, s5.err, some s5.inst⟩
                  else
                    let s6 := checkAndUpdateReady cfg api s5.inst cl
                    if s6.2.2 then
                      ⟨.getChallenge :: s1.actions ++ s2.actions ++ s3.actions ++
                          s4.actions ++ s5.actions ++ s6.1, emptyResult, true, some s6.2.1⟩
                    else
                      ⟨.getChallenge :: s1.actions ++ s2.actions ++ s3.actions ++
                          s4.actions ++ s5.actions ++ s6.1, ⟨false, 10⟩, false, some s6.2.1⟩
      | .notFound =>
        let inst' := { inst with status := { inst.status with phase := "Failed" } }
        ⟨[.getChallenge, .updateStatus inst'.status], emptyResult, true, some inst'⟩
      | .apiError =>
        let inst' := { inst with status := { inst.status with phase := "Failed" } }
        ⟨[.getChallenge, .updateStatus inst'.status], emptyResult, true, some inst'⟩

/-! ## Concrete fixtures used by witnesses and counterexamples -/

def resR : ResourceRequirements := ⟨""⟩

def scenBase : ChallengeScenarioSpec :=
  ⟨"nginx:alpine", 80, "NodePort", [], "", resR, none, none, none, none⟩

def challW : Challenge := ⟨"test-challenge", "ctf-instances", ⟨"chall-1", scenBase, 600⟩⟩

def cfgW : Config := ⟨"1.2.3.4", fun _ => ""⟩

def apiW : ApiBehavior := ⟨true, true, true⟩

def clW : Cluster :=
  ⟨.found challW, .notFound, .notFound, .notFound, .notFound, .notFound, .notFound,
   .notFound, .notFound⟩

/-- An instance whose expiry (10) is in the past relative to clock 20. -/
def instExpired : ChallengeInstance :=
  ⟨"inst1", "ctf-instances", ⟨"chall-1", "user-1", "test-challenge", 0, some 10⟩,
   ⟨"Running", "nc 1.2.3.4 31337", ["FLAG\x7bx\x7d"], "inst1-deployment", "inst1-svc",
    true, false⟩⟩

/-- The inputs of one reconcile pass other than the instance itself. -/
structure PassParams where
  cfg : Config
  api : ApiBehavior
  now : Int
  cl : Cluster
  flagRand : String

/-- The in-memory instance surviving a pass (unchanged when the pass deleted
the instance or found none). -/
def passInst (p : PassParams) (inst : ChallengeInstance) : ChallengeInstance :=
  match (Reconcile p.cfg p.api p.now (.found inst) p.cl p.flagRand).inst with
  | some i' => i'
  | none => inst

/-- An instance that already carries a flag (used by the C2 witness). -/
def instFlagged : ChallengeInstance :=
  ⟨"inst1", "ctf-instances", ⟨"chall-1", "user-1", "test-challenge", 0, none⟩,
   ⟨"Pending", "", ["FLAG\x7bseeded\x7d"], "", "", false, false⟩⟩

/-- An instance with no flags yet and no expiry (used by C3/C5 proofs). -/
def instFresh : ChallengeInstance :=
  ⟨"inst1", "ctf-instances", ⟨"chall-1", "user-1", "test-challenge", 0, none⟩,
   ⟨"", "", [], "", "", false, false⟩⟩

/-- A cluster whose template lookup fails with not-found. -/
def clNoChallenge : Cluster :=
  ⟨.notFound, .notFound, .notFound, .notFound, .notFound, .notFound, .notFound,
   .notFound, .notFound⟩

/-- An instance with a flag and an already-set connection string. -/
def instConn : ChallengeInstance :=
  ⟨"inst1", "ctf-instances", ⟨"chall-1", "user-1", "test-challenge", 0, none⟩,
   ⟨"Pending", "nc 9.9.9.9 11111", ["FLAG\x7bseeded\x7d"], "", "", false, false⟩⟩

/-- An observed NodePort endpoint with node port 31337 assigned. -/
def svcObserved : Service :=
  { name := "inst1-svc", ns := "ctf-instances", labels := [], svcType := "NodePort",
    selector := [], ports := [⟨"challenge", 80, 80, 31337, "TCP"⟩], lbIngress := [] }

/-- Cluster state in which everything already exists and the endpoint has an
assigned node port. -/
def clConn : Cluster :=
  ⟨.found challW, .found (BuildDeployment instConn challW), .found svcObserved,
   .notFound, .notFound, .notFound, .notFound, .notFound, .notFound⟩

/-- A malformed template: an unterminated action. -/
def tmplBad : String := "\x7b\x7b.Invalid"

/-- The empty process environment (every variable unset). -/
def envW : String → String := fun _ => ""

/-- A challenge whose routing spec carries the malformed hostname template. -/
def challIngBad : Challenge :=
  { challW with
    spec := { challW.spec with
      scenario := { challW.spec.scenario with
        ingress := some ⟨true, tmplBad, "nginx", [], false, ""⟩ } } }

/-- Whether the template's isolation spec allows DNS egress. -/
def allowDNSOf (challenge : Challenge) : Bool :=
  match challenge.spec.scenario.networkPolicy with
  | some np => np.allowDNS
  | none => false

/-- Whether the template's isolation spec allows internet egress. -/
def allowInternetOf (challenge : Challenge) : Bool :=
  match challenge.spec.scenario.networkPolicy with
  | some np => np.allowInternet
  | none => false

/-- Expected DNS egress rule: kube-dns pods in kube-system, ports 53/UDP and
53/TCP. -/
def dnsEgressRule : NetworkPolicyEgressRule :=
  { toPeers := [{ namespaceSelector := some ⟨[("kubernetes.io/metadata.name", "kube-system")]⟩
                  podSelector := some ⟨[("k8s-app", "kube-dns")]⟩
                  ipBlock := none }]
    ports := [⟨"UDP", 53⟩, ⟨"TCP", 53⟩] }

/-- Expected same-instance primary-workload egress rule. -/
def challengeEgressRule (inst : ChallengeInstance) : NetworkPolicyEgressRule :=
  { toPeers := [{ namespaceSelector := none
                  podSelector := some ⟨[("ctf.io/instance", inst.name), ("app", "challenge")]⟩
                  ipBlock := none }]
    ports := [] }

/-- Expected internet egress rule: all of 0.0.0.0/0 except the three private
ranges. -/
def internetEgressRule : NetworkPolicyEgressRule :=
  { toPeers := [{ namespaceSelector := none
                  podSelector := none
                  ipBlock := some ⟨"0.0.0.0/0",
                                   ["10.0.0.0/8", "172.16.0.0/12", "192.168.0.0/16"]⟩ }]
    ports := [] }

/-- A challenge with the terminal workload and isolation enabled (DNS
allowed, internet allowed). -/
def challIso : Challenge :=
  { challW with
    spec := { challW.spec with
      scenario := { challW.spec.scenario with
        attackBox := some ⟨true, "", 0, resR⟩,
        networkPolicy := some ⟨true, true, true⟩ } } }

/-- The isolation policy built for the C6 witness input. -/
def npIso : NetworkPolicy :=
  (BuildNetworkPolicy instFresh challIso).getD
    ⟨"", "", [], ⟨[]⟩, [], []⟩

/-- A challenge with routing enabled and no hostname-template override, so
the builder consults the `DEFAULT_HOST_TEMPLATE` environment variable. -/
def challIngDefault : Challenge :=
  { challW with
    spec := { challW.spec with
      scenario := { challW.spec.scenario with
        ingress := some ⟨true, "", "nginx", [], false, ""⟩ } } }

/-- A process environment overriding the default host template. -/
def envStatic : String → String :=
  fun k => if k = "DEFAULT_HOST_TEMPLATE" then "static.example.com" else ""

/-- An instance whose source identity needs sanitising. -/
def instRawSource : ChallengeInstance :=
  ⟨"inst1", "ctf-instances", ⟨"chall-1", "Alice@CTF.Local", "test-challenge", 0, none⟩,
   ⟨"", "", [], "", "", false, false⟩⟩

/-! ## Claim C1 -/

/-- Claim C1: a reconcile pass on an instance whose expiry is set and past,
or whose objective-met (`FlagValidated`) flag is set, issues exactly one API
call — the deletion of the instance — and returns an empty `ctrl.Result`:
no template resolution, no flag generation and no resource creation happen
in that pass. -/
theorem c1_delete_precedes_provisioning (cfg : Config) (api : ApiBehavior) (now : Int)
    (inst : ChallengeInstance) (cl : Cluster) (flagRand : String)
    (h : isExpired now inst = true ∨ inst.status.flagValidated = true) :
    (Reconcile cfg api now (.found inst) cl flagRand).actions = [ApiCall.deleteInstance] ∧
    (Reconcile cfg api now (.found inst) cl flagRand).result = emptyResult := by
  rcases h with h | h
  · by_cases hd : api.deleteOk <;> simp [Reconcile, h, hd]
  · by_cases he : isExpired now inst <;> by_cases hd : api.deleteOk <;>
      simp [Reconcile, h, he, hd]

/-- Witness for C1 at a concrete expired-and-validated-free instance. -/
theorem c1_witness :
    (isExpired 20 instExpired = true ∨ instExpired.status.flagValidated = true) ∧
    ((Reconcile cfgW apiW 20 (.found instExpired) clW "r").actions =
        [ApiCall.deleteInstance] ∧
      (Reconcile cfgW apiW 20 (.found instExpired) clW "r").result = emptyResult) :=
  ⟨Or.inl (by decide),
   c1_delete_precedes_provisioning cfgW apiW 20 instExpired clW "r" (Or.inl (by decide))⟩

/-! ## Claim C2 -/

theorem ensureDeployment_flags (api : ApiBehavior) (inst : ChallengeInstance)
    (challenge : Challenge) (cl : Cluster) :
    (ensureDeployment api inst challenge cl).inst.status.flags = inst.status.flags ∧
    ApiCall.generateFlag ∉ (ensureDeployment api inst challenge cl).actions := by
  unfold ensureDeployment
  cases cl.deployment <;> simp <;> split <;> simp

theorem ensureService_flags (cfg : Config) (api : ApiBehavior) (inst : ChallengeInstance)
    (challenge : Challenge) (cl : Cluster) :
    (ensureService cfg api inst challenge cl).inst.status.flags = inst.status.flags ∧
    ApiCall.generateFlag ∉ (ensureService cfg api inst challenge cl).actions := by
  unfold ensureService
  cases cl.service <;> simp <;> split <;> simp

theorem ensureAttackBox_flags (api : ApiBehavior) (inst : ChallengeInstance)
    (challenge : Challenge) (cl : Cluster) :
    (ensureAttackBox api inst challenge cl).inst.status.flags = inst.status.flags ∧
    ApiCall.generateFlag ∉ (ensureAttackBox api inst challenge cl).actions := by
  unfold ensureAttackBox
  cases hd : BuildAttackBoxDeployment inst challenge <;>
    cases hs : BuildAttackBoxService inst challenge <;>
    cases cl.attackBoxDeployment <;> cases cl.attackBoxService <;>
    simp <;> split <;> simp_all

theorem ensureIngress_flags (cfg : Config) (api : ApiBehavior) (inst : ChallengeInstance)
    (challenge : Challenge) (cl : Cluster) :
    (ensureIngress cfg api inst challenge cl).inst.status.flags = inst.status.flags ∧
    ApiCall.generateFlag ∉ (ensureIngress cfg api inst challenge cl).actions := by
  unfold ensureIngress
  cases hb : BuildIngress inst challenge cfg.env <;> cases cl.ingress <;>
    simp <;> split_ifs <;> simp

theorem ensureNetworkPolicy_flags (api : ApiBehavior) (inst : ChallengeInstance)
    (challenge : Challenge) (cl : Cluster) :
    (ensureNetworkPolicy api inst challenge cl).inst.status.flags = inst.status.flags ∧
    ApiCall.generateFlag ∉ (ensureNetworkPolicy api inst challenge cl).actions := by
  unfold ensureNetworkPolicy
  cases hb : BuildNetworkPolicy inst challenge <;> cases cl.networkPolicy <;> simp

theorem checkAndUpdateReady_flags (cfg : Config) (api : ApiBehavior)
    (inst : ChallengeInstance) (cl : Cluster) :
    (checkAndUpdateReady cfg api inst cl).2.1.status.flags = inst.status.flags ∧
    ApiCall.generateFlag ∉ (checkAndUpdateReady cfg api inst cl).1 := by
  unfold checkAndUpdateReady
  by_cases h0 : inst.status.deploymentName = ""
  · simp [h0]
  · cases cl.statusDeployment <;> cases hs : cl.statusService <;> simp [h0, hs] <;>
      split_ifs <;> simp

theorem reconcile_preserves_flags (cfg : Config) (api : ApiBehavior) (now : Int)
    (inst : ChallengeInstance) (cl : Cluster) (flagRand : String)
    (h : inst.status.flags ≠ []) :
    ApiCall.generateFlag ∉ (Reconcile cfg api now (.found inst) cl flagRand).actions ∧
    ∀ i', (Reconcile cfg api now (.found inst) cl flagRand).inst = some i' →
      i'.status.flags = inst.status.flags := by
  unfold Reconcile
  by_cases he : isExpired now inst
  · by_cases hd : api.deleteOk <;> simp [he, hd]
  · by_cases hv : inst.status.flagValidated
    · by_cases hd : api.deleteOk <;> simp [he, hv, hd]
    · cases hc : cl.challenge with
      | notFound => simp [he, hv]
      | apiError => simp [he, hv]
      | found challenge =>
        simp only [he, hv, Bool.false_eq_true, if_false, if_neg, ite_false, h]
        have H1 := ensureDeployment_flags api inst challenge cl
        by_cases e1 : (ensureDeployment api inst challenge cl).err ||
            (ensureDeployment api inst challenge cl).result.requeue
        · simp [e1, H1.1, H1.2]
        · simp only [e1, Bool.false_eq_true, if_false, ite_false]
          have H2 := ensureService_flags cfg api (ensureDeployment api inst challenge cl).inst
            challenge cl
          by_cases e2 : (ensureService cfg api (ensureDeployment api inst challenge cl).inst
              challenge cl).err ||
              (ensureService cfg api (ensureDeployment api inst challenge cl).inst
              challenge cl).result.requeue
          · simp [e2, H1.1, H1.2, H2.1, H2.2]
          · simp only [e2, Bool.false_eq_true, if_false, ite_false]
            generalize hi2 : (ensureService cfg api
              (ensureDeployment api inst challenge cl).inst challenge cl).inst = i2 at *
            have hf2 : i2.status.flags = inst.status.flags := by
              rw [H2.1, H1.1]
            have H3 := ensureAttackBox_flags api i2 challenge cl
            by_cases e3 : (ensureAttackBox api i2 challenge cl).err ||
                (ensureAttackBox api i2 challenge cl).result.requeue
            · simp [e3, H1.2, H2.2, H3.1, H3.2, hf2]
            · simp only [e3, Bool.false_eq_true, if_false, ite_false]
              generalize hi3 : (ensureAttackBox api i2 challenge cl).inst = i3 at *
              have hf3 : i3.status.flags = inst.status.flags := by rw [H3.1, hf2]
              have H4 := ensureIngress_flags cfg api i3 challenge cl
              by_cases e4 : (ensureIngress cfg api i3 challenge cl).err ||
                  (ensureIngress cfg api i3 challenge cl).result.requeue
              · simp [e4, H1.2, H2.2, H3.2, H4.1, H4.2, hf3]
              · simp only [e4, Bool.false_eq_true, if_false, ite_false]
                generalize hi4 : (ensureIngress cfg api i3 challenge cl).inst = i4 at *
                have hf4 : i4.status.flags = inst.status.flags := by rw [H4.1, hf3]
                have H5 := ensureNetworkPolicy_flags api i4 challenge cl
                by_cases e5 : (ensureNetworkPolicy api i4 challenge cl).err ||
                    (ensureNetworkPolicy api i4 challenge cl).result.requeue
                · simp [e5, H1.2, H2.2, H3.2, H4.2, H5.1, H5.2, hf4]
                · simp only [e5, Bool.false_eq_true, if_false, ite_false]
                  generalize hi5 : (ensureNetworkPolicy api i4 challenge cl).inst = i5 at *
                  have hf5 : i5.status.flags = inst.status.flags := by rw [H5.1, hf4]
                  have H6 := checkAndUpdateReady_flags cfg api i5 cl
                  by_cases e6 : (checkAndUpdateReady cfg api i5 cl).2.2
                  · simp [e6, H1.2, H2.2, H3.2, H4.2, H5.2, H6.1, H6.2, hf5]
                  · simp [e6, H1.2, H2.2, H3.2, H4.2, H5.2, H6.1, H6.2, hf5]

/-- Claim C2: a pass on an instance that already has flags performs no flag
generation and leaves its flag list unchanged; a flag-generation call occurs
only when the flag list is empty; and a non-empty flag list survives any
sequence of further passes unchanged. -/
theorem c2_flags_immutable (cfg : Config) (api : ApiBehavior) (now : Int)
    (inst : ChallengeInstance) (cl : Cluster) (flagRand : String) :
    (inst.status.flags ≠ [] →
      ApiCall.generateFlag ∉ (Reconcile cfg api now (.found inst) cl flagRand).actions ∧
      ∀ i', (Reconcile cfg api now (.found inst) cl flagRand).inst = some i' →
        i'.status.flags = inst.status.flags) ∧
    (ApiCall.generateFlag ∈ (Reconcile cfg api now (.found inst) cl flagRand).actions →
      inst.status.flags = []) ∧
    (∀ ps : List PassParams, inst.status.flags ≠ [] →
      (ps.foldl (fun i p => passInst p i) inst).status.flags = inst.status.flags) := by
  refine ⟨fun h => reconcile_preserves_flags cfg api now inst cl flagRand h, ?_, ?_⟩
  · intro hmem
    by_contra hne
    exact (reconcile_preserves_flags cfg api now inst cl flagRand hne).1 hmem
  · intro ps
    induction ps generalizing inst with
    | nil => intro _; rfl
    | cons p rest ih =>
      intro h
      have hstep : (passInst p inst).status.flags = inst.status.flags := by
        unfold passInst
        cases hi : (Reconcile p.cfg p.api p.now (.found inst) p.cl p.flagRand).inst with
        | none => rfl
        | some i' =>
          exact (reconcile_preserves_flags p.cfg p.api p.now inst p.cl p.flagRand h).2 i' hi
      simpa [List.foldl_cons, hstep] using
        ih (passInst p inst) (by rw [hstep]; exact h)

/-- Witness for C2 at a concrete flagged instance. -/
theorem c2_witness :
    ApiCall.generateFlag ∉ (Reconcile cfgW apiW 0 (.found instFlagged) clW "r").actions :=
  ((c2_flags_immutable cfgW apiW 0 instFlagged clW "r").1 (by decide)).1

/-! ## Claim C3

In controller-runtime, returning a non-nil error from `Reconcile` makes the
scheduler requeue the request with backoff; `return ctrl.Result{}, err` is a
retry request.  The missing-template branch of the source returns the fetch
error, so the claim's "not retried automatically" clause fails; everything
else in the claim (phase Failed, stop, no resources) holds. -/

/-- Counterexample to C3 as stated: on a concrete instance referencing a
nonexistent template, the pass sets phase Failed and creates nothing, but it
returns a non-nil error to the scheduler — i.e. it requests an automatic
retry, contrary to the claim's "NOT retried automatically" clause. -/
theorem c3_counterexample :
    (Reconcile cfgW apiW 0 (.found instFresh) clNoChallenge "r").err = true ∧
    (Reconcile cfgW apiW 0 (.found instFresh) clNoChallenge "r").inst =
      some { instFresh with status := { instFresh.status with phase := "Failed" } } := by
  constructor <;> decide

/-- Claim C3 (amended): when the template cannot be resolved, the pass sets
the instance's phase to Failed, performs no flag generation and creates no
resources, and returns the fetch error to the scheduler — so the failure IS
retried automatically by the scheduler's backoff, not dropped. -/
theorem c3_template_missing_fails (cfg : Config) (api : ApiBehavior) (now : Int)
    (inst : ChallengeInstance) (cl : Cluster) (flagRand : String)
    (hexp : isExpired now inst = false) (hval : inst.status.flagValidated = false)
    (hch : cl.challenge = .notFound ∨ cl.challenge = .apiError) :
    (Reconcile cfg api now (.found inst) cl flagRand).err = true ∧
    (Reconcile cfg api now (.found inst) cl flagRand).actions =
      [ApiCall.getChallenge,
       ApiCall.updateStatus { inst.status with phase := "Failed" }] ∧
    (Reconcile cfg api now (.found inst) cl flagRand).result = emptyResult ∧
    (Reconcile cfg api now (.found inst) cl flagRand).inst =
      some { inst with status := { inst.status with phase := "Failed" } } := by
  rcases hch with hch | hch <;> simp [Reconcile, hexp, hval, hch]

/-- Witness for the amended C3 at a concrete missing-template input. -/
theorem c3_witness :
    (Reconcile cfgW apiW 0 (.found instFresh) clNoChallenge "rnd").err = true ∧
    (Reconcile cfgW apiW 0 (.found instFresh) clNoChallenge "rnd").actions =
      [ApiCall.getChallenge,
       ApiCall.updateStatus { instFresh.status with phase := "Failed" }] ∧
    (Reconcile cfgW apiW 0 (.found instFresh) clNoChallenge "rnd").result = emptyResult ∧
    (Reconcile cfgW apiW 0 (.found instFresh) clNoChallenge "rnd").inst =
      some { instFresh with status := { instFresh.status with phase := "Failed" } } :=
  c3_template_missing_fails cfgW apiW 0 instFresh clNoChallenge "rnd" (by decide)
    (by decide) (Or.inl (by decide))

/-! ## Claim C4 -/

/-- Counterexample to C4 as stated: a full pass on a concrete instance whose
connection-info is already non-empty rewrites it with the different string
computed by the endpoint-ensure step. -/
theorem c4_counterexample :
    instConn.status.connectionInfo = "nc 9.9.9.9 11111" ∧
    ((Reconcile cfgW apiW 0 (.found instConn) clConn "r").inst.map
      (fun i => i.status.connectionInfo)) = some "nc 1.2.3.4 31337" := by
  constructor <;> decide

/-- Claim C4 (amended): the routing-rule-ensure step never touches a
non-empty connection-info (it writes only when the field is empty), but the
endpoint-ensure step overwrites connection-info whenever the string computed
from the observed endpoint is non-empty and different from the stored one. -/
theorem c4_connection_info_policy (cfg : Config) (api : ApiBehavior)
    (inst : ChallengeInstance) (challenge : Challenge) (cl : Cluster) :
    (inst.status.connectionInfo ≠ "" →
      (ensureIngress cfg api inst challenge cl).inst = inst) ∧
    (∀ svc, cl.service = .found svc →
      GetConnectionInfo (some svc) (getNodeIP cfg) ≠ "" →
      inst.status.connectionInfo ≠ GetConnectionInfo (some svc) (getNodeIP cfg) →
      (ensureService cfg api inst challenge cl).inst.status.connectionInfo =
        GetConnectionInfo (some svc) (getNodeIP cfg)) := by
  constructor
  · intro h
    unfold ensureIngress
    cases hb : BuildIngress inst challenge cfg.env <;> cases hcl : cl.ingress <;>
      simp [h] <;> split_ifs <;> simp
  · intro svc hsvc hne hdiff
    unfold ensureService
    rw [hsvc]
    simp [hne, hdiff]

/-- Witness for the amended C4: the routing-rule step leaves the concrete
instance untouched, and the endpoint step rewrites its connection-info. -/
theorem c4_witness :
    (ensureIngress cfgW apiW instConn challW clConn).inst = instConn ∧
    (ensureService cfgW apiW instConn challW clConn).inst.status.connectionInfo =
      GetConnectionInfo (some svcObserved) (getNodeIP cfgW) :=
  ⟨(c4_connection_info_policy cfgW apiW instConn challW clConn).1 (by decide),
   (c4_connection_info_policy cfgW apiW instConn challW clConn).2 svcObserved (by decide)
     (by decide) (by decide)⟩

/-! ## Claim C5 -/

/-- Counterexample to C5 as stated: flag generation does error on the
malformed template, and hostname rendering itself errors — but the routing
rule builder swallows that error and substitutes the fallback hostname
`inst1.ctf.local` instead of failing loudly. -/
theorem c5_counterexample :
    (flaggen.Generate tmplBad "i" "s" "c" "r").isOk = false ∧
    (renderHostTemplate tmplBad ⟨"inst1", "user-1", "chall-1", "user-1"⟩).isOk = false ∧
    (BuildIngress instFresh challIngBad envW).map (fun g => g.host) =
      some "inst1.ctf.local" := by
  refine ⟨by decide, by decide, by decide⟩

/-- Claim C5 (amended): flag generation surfaces template parse and
execution failures as explicit errors to the caller, but hostname rendering
for the routing rule does not fail loudly — on any rendering error the
builder silently substitutes the fallback hostname `<instance>.ctf.local`. -/
theorem c5_template_error_handling (tmpl iid sid cid rand : String)
    (inst : ChallengeInstance) (challenge : Challenge) (env : String → String) :
    (∀ e, parseTemplate (if tmpl = "" then flaggen.DefaultTemplate else tmpl) = .error e →
      flaggen.Generate tmpl iid sid cid rand = .error e) ∧
    (∀ ns e, parseTemplate (if tmpl = "" then flaggen.DefaultTemplate else tmpl) = .ok ns →
      execNodes (flaggen.flagLookup iid sid cid rand) ns = .error e →
      flaggen.Generate tmpl iid sid cid rand = .error e) ∧
    (∀ ingSpec he, challenge.spec.scenario.ingress = some ingSpec →
      ingSpec.enabled = true →
      renderHostTemplate
          (if ingSpec.hostTemplate ≠ "" then ingSpec.hostTemplate
           else getDefaultHostTemplate env)
          ⟨inst.name, SanitizeForLabel inst.spec.sourceID, inst.spec.challengeID,
           inst.spec.sourceID⟩ = .error he →
      (BuildIngress inst challenge env).map (fun g => g.host) =
        some (inst.name ++ ".ctf.local")) := by
  refine ⟨?_, ?_, ?_⟩
  · intro e hp
    simp only [flaggen.Generate, renderTemplate]
    rw [hp]
  · intro ns e hp hx
    simp only [flaggen.Generate, renderTemplate]
    rw [hp]
    exact hx
  · intro ingSpec he hing hen hr
    unfold BuildIngress
    rw [hing]
    simp only [hen, Bool.not_true, Bool.false_eq_true, if_false, ite_false, hr]
    simp

/-- Witness for the amended C5 at the concrete malformed template. -/
theorem c5_witness :
    flaggen.Generate tmplBad "i" "s" "c" "r" =
      .error "template: bad or unterminated action" ∧
    (BuildIngress instFresh challIngBad envW).map (fun g => g.host) =
      some ("inst1" ++ ".ctf.local") :=
  ⟨(c5_template_error_handling tmplBad "i" "s" "c" "r" instFresh challIngBad envW).1
      "template: bad or unterminated action" (by decide),
   (c5_template_error_handling tmplBad "i" "s" "c" "r" instFresh challIngBad envW).2.2
      ⟨true, tmplBad, "nginx", [], false, ""⟩ "template: bad or unterminated action"
      (by decide) (by decide) (by decide)⟩

/-! ## Claim C6 -/

/-- Claim C6: the isolation policy is built exactly when both the terminal
workload and isolation are requested; when built it is egress-only, selects
the terminal workload's pods (its selector is contained in the terminal
workload's pod labels), and its egress rules are exactly the DNS rule (when
allowed), the same-instance primary-workload rule, and (when allowed) the
internet rule excluding the three private ranges — nothing else. -/
theorem c6_isolation_policy (inst : ChallengeInstance) (challenge : Challenge) :
    ((BuildNetworkPolicy inst challenge).isNone ↔
      ¬(attackBoxEnabled challenge = true ∧ networkPolicyEnabled challenge = true)) ∧
    (∀ np, BuildNetworkPolicy inst challenge = some np →
      np.policyTypes = ["Egress"] ∧
      np.podSelector = ⟨[("app", AttackBoxDeploymentName inst)]⟩ ∧
      (∀ d, BuildAttackBoxDeployment inst challenge = some d →
        np.podSelector.matchLabels ⊆ d.podLabels) ∧
      np.egress =
        (if allowDNSOf challenge then [dnsEgressRule] else []) ++
          [challengeEgressRule inst] ++
          (if allowInternetOf challenge then [internetEgressRule] else [])) := by
  unfold BuildNetworkPolicy attackBoxEnabled networkPolicyEnabled allowDNSOf allowInternetOf
  cases hab : challenge.spec.scenario.attackBox with
  | none => simp
  | some ab =>
    cases hnp : challenge.spec.scenario.networkPolicy with
    | none => simp
    | some np =>
      by_cases hbe : ab.enabled
      · by_cases hne : np.enabled
        · simp only [hbe, hne, not_true, Bool.true_eq_false, false_or, if_neg,
            not_false_iff, ite_false, or_self, Option.isNone_some]
          constructor
          · simp
          · intro pol hpol
            simp only [Option.some.injEq] at hpol
            subst hpol
            refine ⟨rfl, rfl, ?_, ?_⟩
            · intro d hd
              unfold BuildAttackBoxDeployment at hd
              rw [hab] at hd
              simp [hbe] at hd
              subst hd
              simp [attackBoxLabels]
            · simp [dnsEgressRule, challengeEgressRule, internetEgressRule]
        · simp [hbe, hne]
      · simp [hbe]

/-- Witness for C6 at a concrete enabled challenge. -/
theorem c6_witness :
    npIso.policyTypes = ["Egress"] ∧
    npIso.podSelector = ⟨[("app", AttackBoxDeploymentName instFresh)]⟩ ∧
    npIso.egress =
      (if allowDNSOf challIso then [dnsEgressRule] else []) ++
        [challengeEgressRule instFresh] ++
        (if allowInternetOf challIso then [internetEgressRule] else []) := by
  have h := (c6_isolation_policy instFresh challIso).2 npIso (by decide)
  exact ⟨h.1, h.2.1, h.2.2.2⟩

/-! ## Claim C7 -/

/-- Claim C7: the connection-info resolver returns the empty string for a
nil endpoint or one without ports; for a node-port endpoint it is empty
until a node port is assigned and `nc <nodeIP> <nodePort>` afterwards; for a
load-balancer endpoint it is empty until the observed ingress carries an
external IP or hostname and `nc <host> <port>` afterwards; and every other
endpoint type yields the empty string. -/
theorem c7_connection_info_resolver (svc : Service) (nodeIP : String) :
    GetConnectionInfo none nodeIP = "" ∧
    (svc.ports = [] → GetConnectionInfo (some svc) nodeIP = "") ∧
    (∀ p ps, svc.ports = p :: ps →
      (svc.svcType = "NodePort" →
        (p.nodePort ≤ 0 → GetConnectionInfo (some svc) nodeIP = "") ∧
        (p.nodePort > 0 →
          GetConnectionInfo (some svc) nodeIP =
            "nc " ++ nodeIP ++ " " ++ toString p.nodePort)) ∧
      (svc.svcType = "LoadBalancer" →
        (svc.lbIngress = [] → GetConnectionInfo (some svc) nodeIP = "") ∧
        (∀ ing ings, svc.lbIngress = ing :: ings →
          (ing.ip = "" → ing.hostname = "" → GetConnectionInfo (some svc) nodeIP = "") ∧
          (ing.ip ≠ "" →
            GetConnectionInfo (some svc) nodeIP =
              "nc " ++ ing.ip ++ " " ++ toString p.port) ∧
          (ing.ip = "" → ing.hostname ≠ "" →
            GetConnectionInfo (some svc) nodeIP =
              "nc " ++ ing.hostname ++ " " ++ toString p.port))) ∧
      (svc.svcType ≠ "NodePort" → svc.svcType ≠ "LoadBalancer" →
        GetConnectionInfo (some svc) nodeIP = "")) := by
  refine ⟨rfl, ?_, ?_⟩
  · intro h
    simp [GetConnectionInfo, h]
  · intro p ps hp
    refine ⟨?_, ?_, ?_⟩
    · intro ht
      constructor
      · intro hle
        simp [GetConnectionInfo, hp, ht]
        omega
      · intro hgt
        simp [GetConnectionInfo, hp, ht, hgt]
    · intro ht
      constructor
      · intro hlb
        simp [GetConnectionInfo, hp, ht, hlb]
      · intro ing ings hing
        refine ⟨?_, ?_, ?_⟩
        · intro hip hhost
          simp [GetConnectionInfo, hp, ht, hing, hip, hhost]
        · intro hip
          simp [GetConnectionInfo, hp, ht, hing, hip]
        · intro hip hhost
          simp [GetConnectionInfo, hp, ht, hing, hip, hhost]
    · intro h1 h2
      simp [GetConnectionInfo, hp, h1, h2]

/-- Witness for C7: a node-port endpoint with port 31337 assigned resolves
to `nc 1.2.3.4 31337`. -/
theorem c7_witness :
    GetConnectionInfo (some svcObserved) "1.2.3.4" = "nc " ++ "1.2.3.4" ++ " " ++
      toString (31337 : Int) :=
  (((c7_connection_info_resolver svcObserved "1.2.3.4").2.2
      ⟨"challenge", 80, 80, 31337, "TCP"⟩ [] (by decide)).1 (by decide)).2 (by decide)

/-! ## Claim C8 -/

/-- Counterexample to C8 as stated: the routing-rule builder is not a
function of the (Instance, Template) pair alone — with identical instance
and template but a different ambient process environment it yields a
different desired state (different hostname). -/
theorem c8_counterexample :
    (BuildIngress instFresh challIngDefault envW).map (fun g => g.host) =
      some "ctf.inst1.user-1.chall-1.devleo.local" ∧
    (BuildIngress instFresh challIngDefault envStatic).map (fun g => g.host) =
      some "static.example.com" ∧
    BuildIngress instFresh challIngDefault envW ≠
      BuildIngress instFresh challIngDefault envStatic := by
  refine ⟨by decide, by decide, by decide⟩

/-- Claim C8 (amended): every builder is a pure deterministic function of
its explicit inputs; the workload, endpoint, terminal-workload and isolation
builders read nothing but the (Instance, Template) pair, while the
routing-rule builder and hostname resolver additionally read exactly the
`DEFAULT_HOST_TEMPLATE` and `AUTH_URL` environment variables: two
environments agreeing on those two variables yield identical routing rules. -/
theorem c8_builder_determinism (inst : ChallengeInstance) (challenge : Challenge)
    (env1 env2 : String → String)
    (hd : env1 "DEFAULT_HOST_TEMPLATE" = env2 "DEFAULT_HOST_TEMPLATE")
    (ha : env1 "AUTH_URL" = env2 "AUTH_URL") :
    BuildIngress inst challenge env1 = BuildIngress inst challenge env2 ∧
    GetIngressHostname inst challenge env1 = GetIngressHostname inst challenge env2 := by
  have hdt : getDefaultHostTemplate env1 = getDefaultHostTemplate env2 := by
    unfold getDefaultHostTemplate
    rw [hd]
  have hau : getAuthURL env1 = getAuthURL env2 := by
    unfold getAuthURL
    rw [ha]
  constructor
  · unfold BuildIngress defaultIngressAnnotations
    rw [hdt, hau]
  · unfold GetIngressHostname
    rw [hdt]

/-- Witness for the amended C8: two distinct environments agreeing on the
two read variables produce the same routing rule for a concrete input. -/
theorem c8_witness :
    BuildIngress instFresh challIngDefault envW =
      BuildIngress instFresh challIngDefault (fun k => if k = "UNRELATED" then "x" else "") ∧
    GetIngressHostname instFresh challIngDefault envW =
      GetIngressHostname instFresh challIngDefault
        (fun k => if k = "UNRELATED" then "x" else "") :=
  c8_builder_determinism instFresh challIngDefault envW
    (fun k => if k = "UNRELATED" then "x" else "") (by decide) (by decide)

/-! ## Claim C9 -/

theorem charOfNat_toNat (n : Nat) (h : n.isValidChar) : (Char.ofNat n).toNat = n := by
  simp only [Char.ofNat, dif_pos h]
  rfl

theorem toLower_not_upper (c : Char) : (c.toLower).isUpper = false := by
  unfold Char.toLower
  by_cases h : c.toNat ≥ 65 ∧ c.toNat ≤ 90
  · rw [if_pos h]
    have hv : (c.toNat + 32).isValidChar := by left; omega
    have ht : (Char.ofNat (c.toNat + 32)).toNat = c.toNat + 32 := charOfNat_toNat _ hv
    simp only [Char.isUpper, Bool.and_eq_false_iff, decide_eq_false_iff_not]
    right
    intro hle
    have h90 : (Char.ofNat (c.toNat + 32)).toNat ≤ (90 : UInt32).toNat := hle
    have e2 : (90 : UInt32).toNat = 90 := rfl
    omega
  · rw [if_neg h]
    simp only [Char.isUpper, Bool.and_eq_false_iff, decide_eq_false_iff_not]
    by_cases h65 : (65 : UInt32) ≤ c.val
    · right
      intro hle
      have h1 : (65 : UInt32).toNat ≤ c.toNat := h65
      have h2 : c.toNat ≤ (90 : UInt32).toNat := hle
      have e1 : (65 : UInt32).toNat = 65 := rfl
      have e2 : (90 : UInt32).toNat = 90 := rfl
      omega
    · left; exact h65

theorem toLower_eq_self_or_range (c : Char) :
    c.toLower = c ∨ (97 ≤ (c.toLower).toNat ∧ (c.toLower).toNat ≤ 122) := by
  unfold Char.toLower
  by_cases h : c.toNat ≥ 65 ∧ c.toNat ≤ 90
  · rw [if_pos h]
    right
    have hv : (c.toNat + 32).isValidChar := by left; omega
    have ht : (Char.ofNat (c.toNat + 32)).toNat = c.toNat + 32 := charOfNat_toNat _ hv
    omega
  · rw [if_neg h]
    left; rfl

theorem mem_replaceCharL {x c : Char} {rep l : List Char}
    (h : x ∈ replaceCharL c rep l) : x ∈ rep ∨ (x ∈ l ∧ x ≠ c) := by
  induction l with
  | nil => simp [replaceCharL] at h
  | cons y ys ih =>
    simp only [replaceCharL, List.mem_append] at h
    rcases h with h | h
    · by_cases hyc : y = c
      · rw [if_pos hyc] at h
        exact Or.inl h
      · rw [if_neg hyc] at h
        simp only [List.mem_singleton] at h
        subst h
        exact Or.inr ⟨List.mem_cons_self _ _, hyc⟩
    · rcases ih h with h' | ⟨hmem, hne⟩
      · exact Or.inl h'
      · exact Or.inr ⟨List.mem_cons_of_mem _ hmem, hne⟩

/-- Counterexample to C9 as stated: the endpoint (Service) also carries the
`ctf.io/source` label, but with the raw unsanitised source identifier, so
the sanitised form is not used consistently on every owned resource. -/
theorem c9_counterexample :
    List.lookup "ctf.io/source" (BuildService instRawSource challW).labels =
      some "Alice@CTF.Local" ∧
    SanitizeForLabel "Alice@CTF.Local" = "alice-at-ctf-local" ∧
    List.lookup "ctf.io/source" (BuildService instRawSource challW).labels ≠
      some (SanitizeForLabel instRawSource.spec.sourceID) := by
  refine ⟨by decide, by decide, by decide⟩

/-- Claim C9 (amended): `SanitizeForLabel` yields a string of at most 63
characters containing no `@`, no `.` and no uppercase letter, and the
sanitised form is the `ctf.io/source` label of the primary workload, the
terminal workload, the routing rule and the isolation policy — but the
endpoint's `ctf.io/source` label carries the raw source identifier. -/
theorem c9_sanitize_label (s : String) (inst : ChallengeInstance) (challenge : Challenge) :
    (SanitizeForLabel s).length ≤ 63 ∧
    (∀ ch ∈ (SanitizeForLabel s).data, ch ≠ '@' ∧ ch ≠ '.' ∧ ch.isUpper = false) ∧
    List.lookup "ctf.io/source" (BuildDeployment inst challenge).labels =
      some (SanitizeForLabel inst.spec.sourceID) ∧
    (∀ np, BuildNetworkPolicy inst challenge = some np →
      List.lookup "ctf.io/source" np.labels = some (SanitizeForLabel inst.spec.sourceID)) ∧
    (∀ d, BuildAttackBoxDeployment inst challenge = some d →
      List.lookup "ctf.io/source" d.labels = some (SanitizeForLabel inst.spec.sourceID)) ∧
    (∀ env ig, BuildIngress inst challenge env = some ig →
      List.lookup "ctf.io/source" ig.labels = some (SanitizeForLabel inst.spec.sourceID)) ∧
    List.lookup "ctf.io/source" (BuildService inst challenge).labels =
      some inst.spec.sourceID := by
  refine ⟨?_, ?_, ?_, ?_, ?_, ?_, ?_⟩
  · show (String.mk _).length ≤ 63
    simp [String.length]
  · intro ch hch
    have hch' : ch ∈ List.take 63 (List.map Char.toLower
        (replaceCharL '.' ['-'] (replaceCharL '@' "-at-".data s.data))) := hch
    have hmap := List.mem_of_mem_take hch'
    rcases List.mem_map.mp hmap with ⟨y, hy, hyl⟩
    have hy2 := mem_replaceCharL hy
    have hdat : "-at-".data = ['-', 'a', 't', '-'] := rfl
    have hyNotAt : y ≠ '@' ∧ y ≠ '.' := by
      rcases hy2 with hdash | ⟨hy1, hne⟩
      · simp only [List.mem_singleton] at hdash
        subst hdash
        exact ⟨by decide, by decide⟩
      · rcases mem_replaceCharL hy1 with hrep | ⟨_, hne2⟩
        · rw [hdat] at hrep
          simp only [List.mem_cons, List.not_mem_nil, or_false] at hrep
          refine ⟨?_, ?_⟩ <;> (rcases hrep with h | h | h | h) <;> (subst h; decide)
        · exact ⟨hne2, hne⟩
    subst hyl
    refine ⟨?_, ?_, toLower_not_upper y⟩
    · rcases toLower_eq_self_or_range y with hself | ⟨hlo, hhi⟩
      · rw [hself]; exact hyNotAt.1
      · intro hcontra
        rw [hcontra] at hlo hhi
        have : ('@').toNat = 64 := rfl
        omega
    · rcases toLower_eq_self_or_range y with hself | ⟨hlo, hhi⟩
      · rw [hself]; exact hyNotAt.2
      · intro hcontra
        rw [hcontra] at hlo hhi
        have : ('.').toNat = 46 := rfl
        omega
  · rfl
  · intro np hnp
    unfold BuildNetworkPolicy at hnp
    cases hab : challenge.spec.scenario.attackBox with
    | none => simp [hab] at hnp
    | some ab =>
      cases hpo : challenge.spec.scenario.networkPolicy with
      | none => simp [hab, hpo] at hnp
      | some po =>
        simp only [hab, hpo] at hnp
        by_cases hen : ¬ab.enabled = true ∨ ¬po.enabled = true
        · rw [if_pos hen] at hnp; cases hnp
        · rw [if_neg hen] at hnp
          simp only [Option.some.injEq] at hnp
          subst hnp
          rfl
  · intro d hd
    unfold BuildAttackBoxDeployment at hd
    cases hab : challenge.spec.scenario.attackBox with
    | none => simp [hab] at hd
    | some ab =>
      simp only [hab] at hd
      by_cases hen : ¬ab.enabled = true
      · rw [if_pos hen] at hd; cases hd
      · rw [if_neg hen] at hd
        simp only [Option.some.injEq] at hd
        subst hd
        rfl
  · intro env ig hig
    unfold BuildIngress at hig
    cases hin : challenge.spec.scenario.ingress with
    | none => simp [hin] at hig
    | some ing =>
      simp only [hin] at hig
      by_cases hen : ¬ing.enabled = true
      · rw [if_pos hen] at hig; cases hig
      · rw [if_neg hen] at hig
        simp only [Option.some.injEq] at hig
        subst hig
        rfl
  · rfl

/-- Witness for the amended C9 at concrete inputs. -/
theorem c9_witness :
    (SanitizeForLabel "Alice@CTF.Local").length ≤ 63 ∧
    List.lookup "ctf.io/source" (BuildDeployment instRawSource challW).labels =
      some (SanitizeForLabel instRawSource.spec.sourceID) ∧
    List.lookup "ctf.io/source" (BuildService instRawSource challW).labels =
      some instRawSource.spec.sourceID ∧
    List.lookup "ctf.io/source"
        ((BuildAttackBoxDeployment instRawSource challIso).getD
          (BuildDeployment instRawSource challW)).labels =
      some (SanitizeForLabel instRawSource.spec.sourceID) := by
  have h := c9_sanitize_label "Alice@CTF.Local" instRawSource challW
  have h2 := (c9_sanitize_label "Alice@CTF.Local" instRawSource challIso).2.2.2.2.1
    ((BuildAttackBoxDeployment instRawSource challIso).getD
      (BuildDeployment instRawSource challW)) (by decide)
  exact ⟨h.1, h.2.2.1, h.2.2.2.2.2.2, h2⟩

/-! ## Claim C10 -/

theorem genFlags_ok (f : Nat → Except String String) (g : Nat → String)
    (l : List Nat) (h : ∀ i ∈ l, f i = .ok (g i)) :
    flaggen.genFlags f l = .ok (l.map g) := by
  induction l with
  | nil => rfl
  | cons i rest ih =>
    have hi := h i (List.mem_cons_self _ _)
    have hrest := ih (fun j hj => h j (List.mem_cons_of_mem _ hj))
    simp [flaggen.genFlags, hi, hrest]

/-- Claim C10: whenever single-flag generation succeeds, `GenerateMultiple`
returns exactly `max count 1` flags — a zero or negative count is normalised
to one — and the i-th flag is exactly the output of an independent
invocation of `Generate` with the i-th draw of randomness. -/
theorem c10_generate_multiple (tmpl instanceID sourceID challengeID : String)
    (count : Int) (randoms : Nat → String) (flags : Nat → String)
    (h : ∀ n, flaggen.Generate tmpl instanceID sourceID challengeID (randoms n) =
      .ok (flags n)) :
    flaggen.GenerateMultiple tmpl instanceID sourceID challengeID count randoms =
      .ok ((List.range (max count 1).toNat).map flags) ∧
    (((List.range (max count 1).toNat).map flags).length : Int) = max count 1 := by
  have hnorm : (if count ≤ 0 then (1 : Int) else count) = max count 1 := by
    rcases le_or_lt count 0 with hc | hc
    · rw [if_pos hc]
      omega
    · rw [if_neg (by omega)]
      omega
  constructor
  · unfold flaggen.GenerateMultiple
    rw [hnorm]
    exact genFlags_ok _ flags _ (fun i _ => h i)
  · simp only [List.length_map, List.length_range]
    have : (1 : Int) ≤ max count 1 := le_max_right count 1
    omega

/-- Witness for C10 at a concrete count of 3 and constant randomness. -/
theorem c10_witness :
    flaggen.GenerateMultiple "" "i" "s" "c" 3 (fun _ => "aaaa") =
      .ok ((List.range (max (3 : Int) 1).toNat).map (fun _ => "FLAG\x7bc_s_aaaa\x7d")) ∧
    (((List.range (max (3 : Int) 1).toNat).map
        (fun _ : Nat => "FLAG\x7bc_s_aaaa\x7d")).length : Int) = max 3 1 :=
  c10_generate_multiple "" "i" "s" "c" 3 (fun _ => "aaaa")
    (fun _ => "FLAG\x7bc_s_aaaa\x7d")
    (fun _ =>
      (by decide : flaggen.Generate "" "i" "s" "c" "aaaa" = .ok "FLAG\x7bc_s_aaaa\x7d"))
